import Mathlib

/-!
Verification of the tokenomics simulation engine of
`tokenomics_simulator.py` (function `run_simulation`).

The engine is embedded shallowly: all Python numerics are modelled by
exact rationals (ℚ), month counters by integers (ℤ), and the monthly
update loop by a structurally recursive function over the remaining
number of months.  A second model (`runSimulationRaw`) embeds the
behaviour of `run_simulation` on a raw parameter dictionary, where any
field may be absent (`dict.get` returning `None`), faithful to the
points in the source where a `None` value is first used and the
resulting `TypeError` would be raised.
-/

set_option maxRecDepth 4000

namespace TokenomicsLab

/-- The simulation parameters actually consumed by the monthly loop of
`run_simulation` (lines 16-38 of the source), with Python reals as ℚ and
month counts as ℤ.  The four allocation percentages that are extracted
but never used (`public_sale_pct`, `treasury_pct`,
`community_rewards_pct`, `liquidity_mining_pct`) appear only in the raw
dictionary model below. -/
structure SimulationParameters where
  total_supply : ℚ
  initial_circulating_supply : ℚ
  simulation_duration_months : ℤ
  team_allocation_pct : ℚ
  private_sale_pct : ℚ
  team_cliff_months : ℤ
  team_vesting_linear_months : ℤ
  private_sale_cliff_months : ℤ
  private_sale_vesting_linear_months : ℤ
  monthly_emission_tokens : ℚ
  transaction_fee_burn_pct : ℚ
  monthly_simulated_transactions : ℚ
  deriving DecidableEq

/-- One row of the output DataFrame (the dict appended at lines 95-105
of the source). -/
structure MonthRecord where
  month : ℤ
  total_supply : ℚ
  circulating_supply : ℚ
  unlocked_team : ℚ
  unlocked_private_sale : ℚ
  minted_tokens : ℚ
  burned_tokens : ℚ
  current_team_locked : ℚ
  current_private_sale_locked : ℚ
  deriving DecidableEq

/-- The mutable state threaded through the loop: the four `current_*`
variables of lines 48-52 of the source. -/
structure SimState where
  circulating : ℚ
  total : ℚ
  teamLocked : ℚ
  psLocked : ℚ
  deriving DecidableEq

/-- Lines 56-58: `team_monthly_unlock_amount = initial_team_locked /
team_vesting_linear_months` when the linear vesting duration is
positive, else 0. -/
def teamMonthlyUnlockAmount (p : SimulationParameters) : ℚ :=
  if p.team_vesting_linear_months > 0 then
    p.total_supply * p.team_allocation_pct / (p.team_vesting_linear_months : ℚ)
  else 0

/-- Lines 60-62: the symmetric monthly unlock amount for the private
sale bucket. -/
def privateSaleMonthlyUnlockAmount (p : SimulationParameters) : ℚ :=
  if p.private_sale_vesting_linear_months > 0 then
    p.total_supply * p.private_sale_pct / (p.private_sale_vesting_linear_months : ℚ)
  else 0

/-- Lines 72-74 (and symmetrically 76-78): one vesting bucket update.
If `month > cliff` and the remaining locked balance is positive, unlock
`min unlockAmount locked` and subtract it; otherwise unlock 0 and leave
the balance unchanged.  Returns `(unlocked this month, new locked)`. -/
def applyVesting (month cliff : ℤ) (unlockAmount locked : ℚ) : ℚ × ℚ :=
  if month > cliff ∧ locked > 0 then
    (min unlockAmount locked, locked - min unlockAmount locked)
  else
    (0, locked)

/-- The body of the simulation loop (lines 66-105) for one month:
vesting unlocks for both buckets, constant mint, constant burn, supply
updates, and the emitted record.  Returns `(record, new state)`. -/
def monthStep (p : SimulationParameters) (month : ℤ) (s : SimState) :
    MonthRecord × SimState :=
  let team := applyVesting month p.team_cliff_months (teamMonthlyUnlockAmount p) s.teamLocked
  let ps := applyVesting month p.private_sale_cliff_months
    (privateSaleMonthlyUnlockAmount p) s.psLocked
  let minted := p.monthly_emission_tokens
  let burned := p.monthly_simulated_transactions * p.transaction_fee_burn_pct
  let total := s.total + (minted - burned)
  let circulating := s.circulating + (team.1 + ps.1 + minted - burned)
  ({ month := month
     total_supply := total
     circulating_supply := circulating
     unlocked_team := team.1
     unlocked_private_sale := ps.1
     minted_tokens := minted
     burned_tokens := burned
     current_team_locked := team.2
     current_private_sale_locked := ps.2 },
   { circulating := circulating
     total := total
     teamLocked := team.2
     psLocked := ps.2 })

/-- The `for month in range(1, simulation_duration_months + 1)` loop:
`n` is the number of remaining iterations and `m` the current month. -/
def simLoop (p : SimulationParameters) : ℤ → ℕ → SimState → List MonthRecord
  | _, 0, _ => []
  | m, n + 1, s =>
    let step := monthStep p m s
    step.1 :: simLoop p (m + 1) n step.2

/-- Line 48-52: the initial state before month 1. -/
def initState (p : SimulationParameters) : SimState :=
  { circulating := p.initial_circulating_supply
    total := p.total_supply
    teamLocked := p.total_supply * p.team_allocation_pct
    psLocked := p.total_supply * p.private_sale_pct }

/-- `run_simulation` on fully-present parameters: months 1 through
`simulation_duration_months` (an empty run when the duration is ≤ 0,
matching `range(1, d + 1)`). -/
def run_simulation (p : SimulationParameters) : List MonthRecord :=
  simLoop p 1 p.simulation_duration_months.toNat (initState p)

/-- The concrete scenario configuration of the spec (section 8):
0.20 = 1/5 team allocation, 0.001 = 1/1000 burn percentage. -/
def cfg1 : SimulationParameters :=
  { total_supply := 1000000000
    initial_circulating_supply := 150000000
    simulation_duration_months := 2
    team_allocation_pct := 1/5
    private_sale_pct := 0
    team_cliff_months := 1
    team_vesting_linear_months := 1
    private_sale_cliff_months := 0
    private_sale_vesting_linear_months := 0
    monthly_emission_tokens := 5000000
    transaction_fee_burn_pct := 1/1000
    monthly_simulated_transactions := 500000000 }

/-- The state reached after `k` iterations of the loop body, starting
from state `s` at month `m`. -/
def stateIter (p : SimulationParameters) (m : ℤ) (s : SimState) : ℕ → SimState
  | 0 => s
  | k + 1 => (monthStep p (m + (k : ℤ)) (stateIter p m s k)).2

/-- The state reached after the first `k` months of `run_simulation`. -/
def stateAt (p : SimulationParameters) (k : ℕ) : SimState :=
  stateIter p 1 (initState p) k

theorem simLoop_length (p : SimulationParameters) :
    ∀ (n : ℕ) (m : ℤ) (s : SimState), (simLoop p m n s).length = n := by
  intro n
  induction n with
  | zero => intro m s; rfl
  | succ n ih => intro m s; simp [simLoop, ih]

theorem stateIter_shift (p : SimulationParameters) (m : ℤ) (s : SimState) :
    ∀ k : ℕ,
      stateIter p (m + 1) (monthStep p m s).2 k = stateIter p m s (k + 1) := by
  intro k
  induction k with
  | zero => simp [stateIter]
  | succ k ih =>
    show (monthStep p (m + 1 + (k : ℤ)) (stateIter p (m + 1) (monthStep p m s).2 k)).2
      = (monthStep p (m + ((k + 1 : ℕ) : ℤ)) (stateIter p m s (k + 1))).2
    rw [ih]
    have hm : m + 1 + (k : ℤ) = m + ((k + 1 : ℕ) : ℤ) := by push_cast; ring
    rw [hm]

theorem simLoop_get (p : SimulationParameters) :
    ∀ (n : ℕ) (m : ℤ) (s : SimState) (i : ℕ)
      (hi : i < (simLoop p m n s).length),
      (simLoop p m n s).get ⟨i, hi⟩
        = (monthStep p (m + (i : ℤ)) (stateIter p m s i)).1 := by
  intro n
  induction n with
  | zero => intro m s i hi; simp [simLoop] at hi
  | succ n ih =>
    intro m s i hi
    match i with
    | 0 => simp [simLoop, stateIter]
    | j + 1 =>
      have hj : j < (simLoop p (m + 1) n (monthStep p m s).2).length := by
        have := hi
        simp [simLoop, simLoop_length] at this ⊢
        omega
      show (simLoop p (m + 1) n (monthStep p m s).2).get ⟨j, hj⟩
        = (monthStep p (m + ((j + 1 : ℕ) : ℤ)) (stateIter p m s (j + 1))).1
      rw [ih (m + 1) (monthStep p m s).2 j hj, stateIter_shift]
      have hm : m + 1 + (j : ℤ) = m + ((j + 1 : ℕ) : ℤ) := by push_cast; ring
      rw [hm]

theorem run_simulation_length (p : SimulationParameters) :
    (run_simulation p).length = p.simulation_duration_months.toNat :=
  simLoop_length p _ 1 (initState p)

theorem run_simulation_get (p : SimulationParameters) (i : ℕ)
    (hi : i < (run_simulation p).length) :
    (run_simulation p).get ⟨i, hi⟩
      = (monthStep p (1 + (i : ℤ)) (stateAt p i)).1 :=
  simLoop_get p _ 1 (initState p) i hi

theorem simLoop_mem (p : SimulationParameters) :
    ∀ (n : ℕ) (m : ℤ) (s : SimState) (r : MonthRecord),
      r ∈ simLoop p m n s → ∃ m2 s2, r = (monthStep p m2 s2).1 := by
  intro n
  induction n with
  | zero => intro m s r hr; simp [simLoop] at hr
  | succ n ih =>
    intro m s r hr
    simp only [simLoop, List.mem_cons] at hr
    rcases hr with hr | hr
    · exact ⟨m, s, hr⟩
    · exact ih (m + 1) (monthStep p m s).2 r hr

theorem monthStep_fst_month (p : SimulationParameters) (m : ℤ) (s : SimState) :
    (monthStep p m s).1.month = m := rfl

theorem monthStep_fst_minted (p : SimulationParameters) (m : ℤ) (s : SimState) :
    (monthStep p m s).1.minted_tokens = p.monthly_emission_tokens := rfl

theorem monthStep_fst_burned (p : SimulationParameters) (m : ℤ) (s : SimState) :
    (monthStep p m s).1.burned_tokens
      = p.monthly_simulated_transactions * p.transaction_fee_burn_pct := rfl

theorem monthStep_fst_total (p : SimulationParameters) (m : ℤ) (s : SimState) :
    (monthStep p m s).1.total_supply
      = s.total + ((monthStep p m s).1.minted_tokens
          - (monthStep p m s).1.burned_tokens) := rfl

theorem monthStep_fst_circ (p : SimulationParameters) (m : ℤ) (s : SimState) :
    (monthStep p m s).1.circulating_supply
      = s.circulating + ((monthStep p m s).1.unlocked_team
          + (monthStep p m s).1.unlocked_private_sale
          + (monthStep p m s).1.minted_tokens
          - (monthStep p m s).1.burned_tokens) := rfl

theorem monthStep_snd_total (p : SimulationParameters) (m : ℤ) (s : SimState) :
    (monthStep p m s).2.total = (monthStep p m s).1.total_supply := rfl

theorem monthStep_snd_circ (p : SimulationParameters) (m : ℤ) (s : SimState) :
    (monthStep p m s).2.circulating
      = (monthStep p m s).1.circulating_supply := rfl

theorem monthStep_snd_team (p : SimulationParameters) (m : ℤ) (s : SimState) :
    (monthStep p m s).2.teamLocked
      = (monthStep p m s).1.current_team_locked := rfl

theorem monthStep_snd_ps (p : SimulationParameters) (m : ℤ) (s : SimState) :
    (monthStep p m s).2.psLocked
      = (monthStep p m s).1.current_private_sale_locked := rfl

theorem monthStep_fst_teamLocked (p : SimulationParameters) (m : ℤ)
    (s : SimState) :
    (monthStep p m s).1.current_team_locked
      = (applyVesting m p.team_cliff_months (teamMonthlyUnlockAmount p)
          s.teamLocked).2 := rfl

theorem monthStep_fst_psLocked (p : SimulationParameters) (m : ℤ)
    (s : SimState) :
    (monthStep p m s).1.current_private_sale_locked
      = (applyVesting m p.private_sale_cliff_months
          (privateSaleMonthlyUnlockAmount p) s.psLocked).2 := rfl

theorem monthStep_fst_unlockedTeam (p : SimulationParameters) (m : ℤ)
    (s : SimState) :
    (monthStep p m s).1.unlocked_team
      = (applyVesting m p.team_cliff_months (teamMonthlyUnlockAmount p)
          s.teamLocked).1 := rfl

theorem monthStep_fst_unlockedPs (p : SimulationParameters) (m : ℤ)
    (s : SimState) :
    (monthStep p m s).1.unlocked_private_sale
      = (applyVesting m p.private_sale_cliff_months
          (privateSaleMonthlyUnlockAmount p) s.psLocked).1 := rfl

theorem stateAt_zero (p : SimulationParameters) : stateAt p 0 = initState p := rfl

theorem stateAt_succ (p : SimulationParameters) (k : ℕ) :
    stateAt p (k + 1) = (monthStep p (1 + (k : ℤ)) (stateAt p k)).2 := rfl

/-- A two-month run unfolded once, with no rational arithmetic
performed: this only evaluates the loop structure. -/
theorem run_simulation_two (p : SimulationParameters)
    (h : p.simulation_duration_months = 2) :
    run_simulation p
      = [(monthStep p 1 (initState p)).1,
         (monthStep p 2 (monthStep p 1 (initState p)).2).1] := by
  rw [run_simulation, h]
  rfl

/-- C1: on the concrete scenario config, `run_simulation` returns
exactly two records; month 1 has unlockedTeam 0, total supply
1 004 500 000 and circulating supply 154 500 000; month 2 has
unlockedTeam 200 000 000, teamLockedRemaining 0, total supply
1 009 000 000 and circulating supply 359 000 000. -/
theorem c1_concrete_scenario :
    (run_simulation cfg1).map (fun r =>
      (r.month, r.unlocked_team, r.current_team_locked, r.total_supply,
        r.circulating_supply))
    = [(1, 0, 200000000, 1004500000, 154500000),
       (2, 200000000, 0, 1009000000, 359000000)] := by
  rw [run_simulation_two cfg1 rfl]
  norm_num [monthStep, applyVesting, initState, teamMonthlyUnlockAmount,
    privateSaleMonthlyUnlockAmount, cfg1]

/-- The documented domains of spec section 3: non-negative supplies and
month counts, duration at least 1, percentages in [0, 1], non-negative
emission and transaction volume. -/
def ValidConfig (p : SimulationParameters) : Prop :=
  0 ≤ p.total_supply ∧ 0 ≤ p.initial_circulating_supply ∧
  1 ≤ p.simulation_duration_months ∧
  0 ≤ p.team_allocation_pct ∧ p.team_allocation_pct ≤ 1 ∧
  0 ≤ p.private_sale_pct ∧ p.private_sale_pct ≤ 1 ∧
  0 ≤ p.team_cliff_months ∧ 0 ≤ p.team_vesting_linear_months ∧
  0 ≤ p.private_sale_cliff_months ∧ 0 ≤ p.private_sale_vesting_linear_months ∧
  0 ≤ p.monthly_emission_tokens ∧
  0 ≤ p.transaction_fee_burn_pct ∧ p.transaction_fee_burn_pct ≤ 1 ∧
  0 ≤ p.monthly_simulated_transactions

instance (p : SimulationParameters) : Decidable (ValidConfig p) := by
  unfold ValidConfig
  infer_instance

theorem cfg1_valid : ValidConfig cfg1 := by
  with_unfolding_all decide

theorem run_cfg1_len_pos : 0 < (run_simulation cfg1).length := by
  rw [run_simulation_length]
  decide

theorem run_cfg1_len_two : 1 + 1 ≤ (run_simulation cfg1).length := by
  rw [run_simulation_length]
  decide

/-- C3: for every valid config, the run has exactly durationMonths
records, and the record at (0-based) index i carries month i + 1, so
the month fields are 1, 2, …, durationMonths in order with no gaps and
no duplicates. -/
theorem c3_month_index (p : SimulationParameters) (hv : ValidConfig p) :
    ((run_simulation p).length : ℤ) = p.simulation_duration_months ∧
    ∀ (i : ℕ) (hi : i < (run_simulation p).length),
      ((run_simulation p).get ⟨i, hi⟩).month = (i : ℤ) + 1 := by
  constructor
  · rw [run_simulation_length]
    have h1 : (1 : ℤ) ≤ p.simulation_duration_months := hv.2.2.1
    omega
  · intro i hi
    rw [run_simulation_get, monthStep_fst_month]
    ring

/-- Witness for C3 at the concrete scenario config. -/
theorem c3_month_index_witness :
    ((run_simulation cfg1).length : ℤ) = cfg1.simulation_duration_months :=
  (c3_month_index cfg1 cfg1_valid).1

/-- C2: the total supply of the first record is the configured total
supply plus that record's mint minus its burn; every later record's
total supply is the previous record's plus its own mint minus burn; the
circulating supply satisfies the analogous recurrence, with the unlock
amounts added, seeded from the configured initial circulating supply. -/
theorem c2_supply_recurrence (p : SimulationParameters) (_hv : ValidConfig p) :
    (∀ h0 : 0 < (run_simulation p).length,
      ((run_simulation p).get ⟨0, h0⟩).total_supply
        = p.total_supply + (((run_simulation p).get ⟨0, h0⟩).minted_tokens
            - ((run_simulation p).get ⟨0, h0⟩).burned_tokens) ∧
      ((run_simulation p).get ⟨0, h0⟩).circulating_supply
        = p.initial_circulating_supply
            + (((run_simulation p).get ⟨0, h0⟩).unlocked_team
               + ((run_simulation p).get ⟨0, h0⟩).unlocked_private_sale
               + ((run_simulation p).get ⟨0, h0⟩).minted_tokens
               - ((run_simulation p).get ⟨0, h0⟩).burned_tokens)) ∧
    (∀ (i : ℕ) (h1 : i + 1 < (run_simulation p).length),
      ((run_simulation p).get ⟨i + 1, h1⟩).total_supply
        = ((run_simulation p).get ⟨i, by omega⟩).total_supply
            + (((run_simulation p).get ⟨i + 1, h1⟩).minted_tokens
               - ((run_simulation p).get ⟨i + 1, h1⟩).burned_tokens) ∧
      ((run_simulation p).get ⟨i + 1, h1⟩).circulating_supply
        = ((run_simulation p).get ⟨i, by omega⟩).circulating_supply
            + (((run_simulation p).get ⟨i + 1, h1⟩).unlocked_team
               + ((run_simulation p).get ⟨i + 1, h1⟩).unlocked_private_sale
               + ((run_simulation p).get ⟨i + 1, h1⟩).minted_tokens
               - ((run_simulation p).get ⟨i + 1, h1⟩).burned_tokens)) := by
  constructor
  · intro h0
    simp only [run_simulation_get, monthStep_fst_total, monthStep_fst_circ,
      monthStep_fst_minted, monthStep_fst_burned, stateAt_zero]
    constructor
    · rfl
    · rfl
  · intro i h1
    simp only [run_simulation_get, monthStep_fst_total, monthStep_fst_circ,
      monthStep_fst_minted, monthStep_fst_burned, stateAt_succ,
      monthStep_snd_total, monthStep_snd_circ]
    exact ⟨trivial, trivial⟩

/-- Witness for C2 at the concrete scenario config, month 1. -/
theorem c2_supply_recurrence_witness :
    ((run_simulation cfg1).get ⟨0, run_cfg1_len_pos⟩).total_supply
      = cfg1.total_supply
        + (((run_simulation cfg1).get ⟨0, run_cfg1_len_pos⟩).minted_tokens
           - ((run_simulation cfg1).get ⟨0, run_cfg1_len_pos⟩).burned_tokens) :=
  ((c2_supply_recurrence cfg1 cfg1_valid).1 run_cfg1_len_pos).1

/-- C6: every record's minted amount is the configured monthly
emission, and every record's burned amount is the configured monthly
transaction volume times the configured burn percentage. -/
theorem c6_constant_mint_burn (p : SimulationParameters) (_hv : ValidConfig p) :
    ∀ r ∈ run_simulation p,
      r.minted_tokens = p.monthly_emission_tokens ∧
      r.burned_tokens
        = p.monthly_simulated_transactions * p.transaction_fee_burn_pct := by
  intro r hr
  obtain ⟨m2, s2, rfl⟩ := simLoop_mem p _ 1 (initState p) r hr
  exact ⟨rfl, rfl⟩

/-- Witness for C6 at the concrete scenario config. -/
theorem c6_constant_mint_burn_witness :
    ∃ r ∈ run_simulation cfg1,
      r.minted_tokens = cfg1.monthly_emission_tokens ∧
      r.burned_tokens
        = cfg1.monthly_simulated_transactions * cfg1.transaction_fee_burn_pct := by
  have hmem : (run_simulation cfg1).get ⟨0, run_cfg1_len_pos⟩ ∈ run_simulation cfg1 :=
    List.get_mem _ _ run_cfg1_len_pos
  exact ⟨_, hmem, c6_constant_mint_burn cfg1 cfg1_valid _ hmem⟩

theorem applyVesting_snd_nonneg (m c : ℤ) (a l : ℚ) (hl : 0 ≤ l) :
    0 ≤ (applyVesting m c a l).2 := by
  unfold applyVesting
  split
  · exact sub_nonneg.mpr (min_le_right a l)
  · exact hl

theorem applyVesting_snd_le (m c : ℤ) (a l : ℚ) (ha : 0 ≤ a) :
    (applyVesting m c a l).2 ≤ l := by
  unfold applyVesting
  split
  · next h =>
    have hmin : 0 ≤ min a l := le_min ha h.2.le
    have : l - min a l ≤ l := by linarith
    exact this
  · exact le_refl l

theorem applyVesting_fst_amount_zero (m c : ℤ) (l : ℚ) :
    (applyVesting m c 0 l).1 = 0 := by
  unfold applyVesting
  split
  · next h => simp [min_eq_left h.2.le]
  · rfl

theorem applyVesting_snd_amount_zero (m c : ℤ) (l : ℚ) :
    (applyVesting m c 0 l).2 = l := by
  unfold applyVesting
  split
  · next h => simp [min_eq_left h.2.le]
  · rfl

theorem applyVesting_snd_zero_locked (m c : ℤ) (a : ℚ) :
    (applyVesting m c a 0).2 = 0 := by
  unfold applyVesting
  split
  · next h => exact absurd h.2 (lt_irrefl 0)
  · rfl

theorem applyVesting_before_cliff (m c : ℤ) (a l : ℚ) (h : ¬ m > c) :
    applyVesting m c a l = (0, l) := by
  unfold applyVesting
  rw [if_neg]
  intro hc
  exact h hc.1

/-- The evolution of one vesting bucket in isolation: the locked
balance after `k` months, starting from `l`, with cliff `c` and monthly
unlock amount `a` (month `k + 1` of the run applies `applyVesting` at
month index `1 + k`). -/
def bucketIter (c : ℤ) (a l : ℚ) : ℕ → ℚ
  | 0 => l
  | k + 1 => (applyVesting (1 + (k : ℤ)) c a (bucketIter c a l k)).2

theorem stateAt_teamLocked (p : SimulationParameters) :
    ∀ k : ℕ, (stateAt p k).teamLocked
      = bucketIter p.team_cliff_months (teamMonthlyUnlockAmount p)
          (p.total_supply * p.team_allocation_pct) k := by
  intro k
  induction k with
  | zero => rfl
  | succ k ih =>
    have hstep : (stateAt p (k + 1)).teamLocked
        = (applyVesting (1 + (k : ℤ)) p.team_cliff_months
            (teamMonthlyUnlockAmount p) (stateAt p k).teamLocked).2 := rfl
    rw [hstep, ih]
    rfl

theorem stateAt_psLocked (p : SimulationParameters) :
    ∀ k : ℕ, (stateAt p k).psLocked
      = bucketIter p.private_sale_cliff_months (privateSaleMonthlyUnlockAmount p)
          (p.total_supply * p.private_sale_pct) k := by
  intro k
  induction k with
  | zero => rfl
  | succ k ih =>
    have hstep : (stateAt p (k + 1)).psLocked
        = (applyVesting (1 + (k : ℤ)) p.private_sale_cliff_months
            (privateSaleMonthlyUnlockAmount p) (stateAt p k).psLocked).2 := rfl
    rw [hstep, ih]
    rfl

theorem run_simulation_get_teamLocked (p : SimulationParameters) (i : ℕ)
    (hi : i < (run_simulation p).length) :
    ((run_simulation p).get ⟨i, hi⟩).current_team_locked
      = (stateAt p (i + 1)).teamLocked := by
  rw [run_simulation_get]
  rfl

theorem run_simulation_get_psLocked (p : SimulationParameters) (i : ℕ)
    (hi : i < (run_simulation p).length) :
    ((run_simulation p).get ⟨i, hi⟩).current_private_sale_locked
      = (stateAt p (i + 1)).psLocked := by
  rw [run_simulation_get]
  rfl

theorem teamMonthlyUnlockAmount_nonneg (p : SimulationParameters)
    (hts : 0 ≤ p.total_supply) (hpct : 0 ≤ p.team_allocation_pct) :
    0 ≤ teamMonthlyUnlockAmount p := by
  unfold teamMonthlyUnlockAmount
  split
  · next h =>
    have hden : (0 : ℚ) < (p.team_vesting_linear_months : ℚ) := by
      exact_mod_cast h
    exact div_nonneg (mul_nonneg hts hpct) hden.le
  · exact le_refl 0

theorem psMonthlyUnlockAmount_nonneg (p : SimulationParameters)
    (hts : 0 ≤ p.total_supply) (hpct : 0 ≤ p.private_sale_pct) :
    0 ≤ privateSaleMonthlyUnlockAmount p := by
  unfold privateSaleMonthlyUnlockAmount
  split
  · next h =>
    have hden : (0 : ℚ) < (p.private_sale_vesting_linear_months : ℚ) := by
      exact_mod_cast h
    exact div_nonneg (mul_nonneg hts hpct) hden.le
  · exact le_refl 0

theorem simLoop_locked_nonneg (p : SimulationParameters) :
    ∀ (n : ℕ) (m : ℤ) (s : SimState), 0 ≤ s.teamLocked → 0 ≤ s.psLocked →
      ∀ r ∈ simLoop p m n s,
        0 ≤ r.current_team_locked ∧ 0 ≤ r.current_private_sale_locked := by
  intro n
  induction n with
  | zero => intro m s h1 h2 r hr; simp [simLoop] at hr
  | succ n ih =>
    intro m s h1 h2 r hr
    simp only [simLoop, List.mem_cons] at hr
    rcases hr with rfl | hr
    · exact ⟨applyVesting_snd_nonneg _ _ _ _ h1, applyVesting_snd_nonneg _ _ _ _ h2⟩
    · exact ih (m + 1) (monthStep p m s).2
        (applyVesting_snd_nonneg _ _ _ _ h1)
        (applyVesting_snd_nonneg _ _ _ _ h2) r hr

/-- C5: under the documented domains, both locked balances are
non-increasing from each record to the next, and are non-negative in
every record. -/
theorem c5_locked_monotone_nonneg (p : SimulationParameters)
    (hv : ValidConfig p) :
    (∀ (i : ℕ) (h1 : i + 1 < (run_simulation p).length),
      ((run_simulation p).get ⟨i + 1, h1⟩).current_team_locked
        ≤ ((run_simulation p).get ⟨i, by omega⟩).current_team_locked ∧
      ((run_simulation p).get ⟨i + 1, h1⟩).current_private_sale_locked
        ≤ ((run_simulation p).get ⟨i, by omega⟩).current_private_sale_locked) ∧
    (∀ r ∈ run_simulation p,
      0 ≤ r.current_team_locked ∧ 0 ≤ r.current_private_sale_locked) := by
  obtain ⟨hts, hics, hdur, htap, htap1, hpsp, hpsp1, htc, htv, hpc, hpv,
    hemi, hburn, hburn1, hvol⟩ := hv
  have hta : 0 ≤ teamMonthlyUnlockAmount p :=
    teamMonthlyUnlockAmount_nonneg p hts htap
  have hpa : 0 ≤ privateSaleMonthlyUnlockAmount p :=
    psMonthlyUnlockAmount_nonneg p hts hpsp
  constructor
  · intro i h1
    constructor
    · rw [run_simulation_get_teamLocked p (i + 1) h1,
        run_simulation_get_teamLocked p i (by omega)]
      have hstep : (stateAt p (i + 1 + 1)).teamLocked
          = (applyVesting (1 + ((i + 1 : ℕ) : ℤ)) p.team_cliff_months
              (teamMonthlyUnlockAmount p) (stateAt p (i + 1)).teamLocked).2 := rfl
      rw [hstep]
      exact applyVesting_snd_le _ _ _ _ hta
    · rw [run_simulation_get_psLocked p (i + 1) h1,
        run_simulation_get_psLocked p i (by omega)]
      have hstep : (stateAt p (i + 1 + 1)).psLocked
          = (applyVesting (1 + ((i + 1 : ℕ) : ℤ)) p.private_sale_cliff_months
              (privateSaleMonthlyUnlockAmount p) (stateAt p (i + 1)).psLocked).2 := rfl
      rw [hstep]
      exact applyVesting_snd_le _ _ _ _ hpa
  · exact simLoop_locked_nonneg p _ 1 (initState p)
      (mul_nonneg hts htap) (mul_nonneg hts hpsp)

theorem run_cfg1_zero_succ_lt : 0 + 1 < (run_simulation cfg1).length := by
  rw [run_simulation_length]
  decide

/-- Witness for C5 at the concrete scenario config, records 1 and 2. -/
theorem c5_locked_monotone_nonneg_witness :
    ((run_simulation cfg1).get ⟨0 + 1, run_cfg1_zero_succ_lt⟩).current_team_locked
      ≤ ((run_simulation cfg1).get ⟨0, run_cfg1_len_pos⟩).current_team_locked :=
  ((c5_locked_monotone_nonneg cfg1 cfg1_valid).1 0 run_cfg1_zero_succ_lt).1

/-- The out-of-domain configuration used to refute C7: a negative team
allocation percentage. -/
def cfgNeg : SimulationParameters :=
  { total_supply := 100
    initial_circulating_supply := 0
    simulation_duration_months := 1
    team_allocation_pct := -(1/10)
    private_sale_pct := 0
    team_cliff_months := 0
    team_vesting_linear_months := 0
    private_sale_cliff_months := 0
    private_sale_vesting_linear_months := 0
    monthly_emission_tokens := 0
    transaction_fee_burn_pct := 0
    monthly_simulated_transactions := 0 }

/-- A one-month run unfolded, with no rational arithmetic performed. -/
theorem run_simulation_single (p : SimulationParameters)
    (h : p.simulation_duration_months = 1) :
    run_simulation p = [(monthStep p 1 (initState p)).1] := by
  rw [run_simulation, h]
  rfl

/-- C7 counterexample: with teamAllocationPct = -0.1 the single output
record carries a negative teamLockedRemaining (namely -10), so locked
balances are not clamped into [0, ∞) for configs outside the
documented domains. -/
theorem c7_counterexample :
    ¬ (∀ r ∈ run_simulation cfgNeg,
        0 ≤ r.current_team_locked ∧ 0 ≤ r.current_private_sale_locked) := by
  rw [run_simulation_single cfgNeg rfl]
  intro h
  have hrec := (h _ (List.mem_singleton_self _)).1
  norm_num [monthStep, applyVesting, initState, teamMonthlyUnlockAmount,
    privateSaleMonthlyUnlockAmount, cfgNeg] at hrec

/-- C7 amended: the run always completes (the engine is total), and the
locked fields stay in [0, ∞) in every record provided the two initial
locked allocations are non-negative; a negative initial allocation (for
example from a negative percentage) is not clamped and persists. -/
theorem c7_amended_locked_nonneg (p : SimulationParameters)
    (h1 : 0 ≤ p.total_supply * p.team_allocation_pct)
    (h2 : 0 ≤ p.total_supply * p.private_sale_pct) :
    ∀ r ∈ run_simulation p,
      0 ≤ r.current_team_locked ∧ 0 ≤ r.current_private_sale_locked :=
  fun r hr => simLoop_locked_nonneg p _ 1 (initState p) h1 h2 r hr

/-- Witness for the amended C7 at the concrete scenario config. -/
theorem c7_amended_locked_nonneg_witness :
    0 ≤ ((run_simulation cfg1).get ⟨0, run_cfg1_len_pos⟩).current_team_locked :=
  (c7_amended_locked_nonneg cfg1
    (by with_unfolding_all decide) (by with_unfolding_all decide) _
    (List.get_mem _ _ run_cfg1_len_pos)).1

/-- C8: with a zero linear-vesting duration the corresponding monthly
unlock amount is 0, so every record reports a zero unlock and the full
initial locked allocation, for the whole run, even past the cliff; each
bucket behaves this way under its own zero-duration hypothesis. -/
theorem c8_zero_linear_vesting (p : SimulationParameters) :
    (p.team_vesting_linear_months = 0 →
      teamMonthlyUnlockAmount p = 0 ∧
      ∀ (i : ℕ) (hi : i < (run_simulation p).length),
        ((run_simulation p).get ⟨i, hi⟩).unlocked_team = 0 ∧
        ((run_simulation p).get ⟨i, hi⟩).current_team_locked
          = p.total_supply * p.team_allocation_pct) ∧
    (p.private_sale_vesting_linear_months = 0 →
      privateSaleMonthlyUnlockAmount p = 0 ∧
      ∀ (i : ℕ) (hi : i < (run_simulation p).length),
        ((run_simulation p).get ⟨i, hi⟩).unlocked_private_sale = 0 ∧
        ((run_simulation p).get ⟨i, hi⟩).current_private_sale_locked
          = p.total_supply * p.private_sale_pct) := by
  constructor
  · intro hL
    have hamt : teamMonthlyUnlockAmount p = 0 := by
      unfold teamMonthlyUnlockAmount
      rw [if_neg]
      omega
    have hconst : ∀ k : ℕ, (stateAt p k).teamLocked
        = p.total_supply * p.team_allocation_pct := by
      intro k
      induction k with
      | zero => rfl
      | succ k ih =>
        have hstep : (stateAt p (k + 1)).teamLocked
            = (applyVesting (1 + (k : ℤ)) p.team_cliff_months
                (teamMonthlyUnlockAmount p) (stateAt p k).teamLocked).2 := rfl
        rw [hstep, hamt, applyVesting_snd_amount_zero, ih]
    refine ⟨hamt, fun i hi => ⟨?_, ?_⟩⟩
    · rw [run_simulation_get, monthStep_fst_unlockedTeam, hamt,
        applyVesting_fst_amount_zero]
    · rw [run_simulation_get_teamLocked]
      exact hconst (i + 1)
  · intro hL
    have hamt : privateSaleMonthlyUnlockAmount p = 0 := by
      unfold privateSaleMonthlyUnlockAmount
      rw [if_neg]
      omega
    have hconst : ∀ k : ℕ, (stateAt p k).psLocked
        = p.total_supply * p.private_sale_pct := by
      intro k
      induction k with
      | zero => rfl
      | succ k ih =>
        have hstep : (stateAt p (k + 1)).psLocked
            = (applyVesting (1 + (k : ℤ)) p.private_sale_cliff_months
                (privateSaleMonthlyUnlockAmount p) (stateAt p k).psLocked).2 := rfl
        rw [hstep, hamt, applyVesting_snd_amount_zero, ih]
    refine ⟨hamt, fun i hi => ⟨?_, ?_⟩⟩
    · rw [run_simulation_get, monthStep_fst_unlockedPs, hamt,
        applyVesting_fst_amount_zero]
    · rw [run_simulation_get_psLocked]
      exact hconst (i + 1)

/-- Witness for C8 at the concrete scenario config, whose private-sale
linear vesting duration is 0. -/
theorem c8_zero_linear_vesting_witness :
    ((run_simulation cfg1).get ⟨0, run_cfg1_len_pos⟩).unlocked_private_sale = 0 :=
  (((c8_zero_linear_vesting cfg1).2 rfl).2 0 run_cfg1_len_pos).1

theorem bucketIter_pre (c : ℤ) (a l : ℚ) :
    ∀ k : ℕ, (k : ℤ) ≤ c → bucketIter c a l k = l := by
  intro k
  induction k with
  | zero => intro _; rfl
  | succ k ih =>
    intro hk
    have hk' : (k : ℤ) ≤ c := by push_cast at hk ⊢; omega
    have hnot : ¬ (1 + (k : ℤ) > c) := by push_cast at hk; omega
    show (applyVesting (1 + (k : ℤ)) c a (bucketIter c a l k)).2 = l
    rw [ih hk', applyVesting_before_cliff _ _ _ _ hnot]

theorem bucketIter_linear (c : ℤ) (hc : 0 ≤ c) (L : ℕ) (hL : 0 < L)
    (T : ℚ) (hT : 0 ≤ T) :
    ∀ j : ℕ, j ≤ L →
      bucketIter c (T / (L : ℚ)) T (c.toNat + j)
        = T * ((L : ℚ) - (j : ℚ)) / (L : ℚ) := by
  have hLq : (0 : ℚ) < (L : ℚ) := by exact_mod_cast hL
  intro j
  induction j with
  | zero =>
    intro _
    rw [Nat.add_zero, bucketIter_pre c _ T c.toNat (by omega)]
    rw [Nat.cast_zero, sub_zero, mul_div_assoc, div_self hLq.ne', mul_one]
  | succ j ih =>
    intro hj
    have hj' : j ≤ L := by omega
    have hprev := ih hj'
    show (applyVesting (1 + ((c.toNat + j : ℕ) : ℤ)) c (T / (L : ℚ))
      (bucketIter c (T / (L : ℚ)) T (c.toNat + j))).2
      = T * ((L : ℚ) - ((j + 1 : ℕ) : ℚ)) / (L : ℚ)
    rw [hprev]
    rcases eq_or_lt_of_le hT with hT0 | hT0
    · rw [← hT0]
      norm_num [applyVesting_snd_zero_locked]
    · have hLgej : (1 : ℚ) ≤ (L : ℚ) - (j : ℚ) := by
        have hcast : (j : ℚ) + 1 ≤ (L : ℚ) := by exact_mod_cast hj
        linarith
      have hlock_pos : 0 < T * ((L : ℚ) - (j : ℚ)) / (L : ℚ) :=
        div_pos (mul_pos hT0 (by linarith)) hLq
      have hcond : 1 + ((c.toNat + j : ℕ) : ℤ) > c := by omega
      have hmin : min (T / (L : ℚ)) (T * ((L : ℚ) - (j : ℚ)) / (L : ℚ))
          = T / (L : ℚ) := by
        apply min_eq_left
        rw [div_le_div_iff_of_pos_right hLq]
        nlinarith
      unfold applyVesting
      rw [if_pos ⟨hcond, hlock_pos⟩]
      show T * ((L : ℚ) - (j : ℚ)) / (L : ℚ)
          - min (T / (L : ℚ)) (T * ((L : ℚ) - (j : ℚ)) / (L : ℚ))
        = T * ((L : ℚ) - ((j + 1 : ℕ) : ℚ)) / (L : ℚ)
      rw [hmin]
      push_cast
      field_simp
      ring

theorem bucketIter_exhausted (c : ℤ) (a l : ℚ) (k : ℕ)
    (h : bucketIter c a l k = 0) :
    ∀ d : ℕ, bucketIter c a l (k + d) = 0 := by
  intro d
  induction d with
  | zero => exact h
  | succ d ih =>
    show (applyVesting (1 + ((k + d : ℕ) : ℤ)) c a (bucketIter c a l (k + d))).2 = 0
    rw [ih, applyVesting_snd_zero_locked]

theorem teamLocked_exhausted (p : SimulationParameters)
    (hts : 0 ≤ p.total_supply) (htap : 0 ≤ p.team_allocation_pct)
    (hc : 0 ≤ p.team_cliff_months) (hL : 0 < p.team_vesting_linear_months) :
    ∀ k : ℕ, p.team_cliff_months + p.team_vesting_linear_months ≤ (k : ℤ) →
      (stateAt p k).teamLocked = 0 := by
  intro k hk
  rw [stateAt_teamLocked]
  have hamt : teamMonthlyUnlockAmount p
      = p.total_supply * p.team_allocation_pct
          / ((p.team_vesting_linear_months.toNat : ℕ) : ℚ) := by
    unfold teamMonthlyUnlockAmount
    rw [if_pos hL]
    congr 1
    exact_mod_cast (congrArg (fun z : ℤ => (z : ℚ))
      (Int.toNat_of_nonneg hL.le)).symm
  have h0 := bucketIter_linear p.team_cliff_months hc
    p.team_vesting_linear_months.toNat (by omega)
    (p.total_supply * p.team_allocation_pct) (mul_nonneg hts htap)
    p.team_vesting_linear_months.toNat (le_refl _)
  have h0' : bucketIter p.team_cliff_months (teamMonthlyUnlockAmount p)
      (p.total_supply * p.team_allocation_pct)
      (p.team_cliff_months.toNat + p.team_vesting_linear_months.toNat) = 0 := by
    rw [hamt, h0, sub_self, mul_zero, zero_div]
  obtain ⟨d, rfl⟩ : ∃ d, k
      = (p.team_cliff_months.toNat + p.team_vesting_linear_months.toNat) + d :=
    ⟨k - (p.team_cliff_months.toNat + p.team_vesting_linear_months.toNat),
      by omega⟩
  exact bucketIter_exhausted _ _ _ _ h0' d

theorem psLocked_exhausted (p : SimulationParameters)
    (hts : 0 ≤ p.total_supply) (hpsp : 0 ≤ p.private_sale_pct)
    (hc : 0 ≤ p.private_sale_cliff_months)
    (hL : 0 < p.private_sale_vesting_linear_months) :
    ∀ k : ℕ,
      p.private_sale_cliff_months + p.private_sale_vesting_linear_months ≤ (k : ℤ) →
      (stateAt p k).psLocked = 0 := by
  intro k hk
  rw [stateAt_psLocked]
  have hamt : privateSaleMonthlyUnlockAmount p
      = p.total_supply * p.private_sale_pct
          / ((p.private_sale_vesting_linear_months.toNat : ℕ) : ℚ) := by
    unfold privateSaleMonthlyUnlockAmount
    rw [if_pos hL]
    congr 1
    exact_mod_cast (congrArg (fun z : ℤ => (z : ℚ))
      (Int.toNat_of_nonneg hL.le)).symm
  have h0 := bucketIter_linear p.private_sale_cliff_months hc
    p.private_sale_vesting_linear_months.toNat (by omega)
    (p.total_supply * p.private_sale_pct) (mul_nonneg hts hpsp)
    p.private_sale_vesting_linear_months.toNat (le_refl _)
  have h0' : bucketIter p.private_sale_cliff_months
      (privateSaleMonthlyUnlockAmount p) (p.total_supply * p.private_sale_pct)
      (p.private_sale_cliff_months.toNat
        + p.private_sale_vesting_linear_months.toNat) = 0 := by
    rw [hamt, h0, sub_self, mul_zero, zero_div]
  obtain ⟨d, rfl⟩ : ∃ d, k
      = (p.private_sale_cliff_months.toNat
          + p.private_sale_vesting_linear_months.toNat) + d :=
    ⟨k - (p.private_sale_cliff_months.toNat
          + p.private_sale_vesting_linear_months.toNat), by omega⟩
  exact bucketIter_exhausted _ _ _ _ h0' d

/-- C4: for a valid config with a positive linear vesting duration L
whose run is long enough (durationMonths ≥ cliff + L), the team locked
balance is exactly 0 in the record of month cliff + L and in every
later record; the private-sale bucket behaves symmetrically under its
own schedule. -/
theorem c4_full_vesting (p : SimulationParameters) (hv : ValidConfig p) :
    (0 < p.team_vesting_linear_months →
      p.team_cliff_months + p.team_vesting_linear_months
        ≤ p.simulation_duration_months →
      ∀ (i : ℕ) (hi : i < (run_simulation p).length),
        p.team_cliff_months + p.team_vesting_linear_months ≤ (i : ℤ) + 1 →
        ((run_simulation p).get ⟨i, hi⟩).current_team_locked = 0) ∧
    (0 < p.private_sale_vesting_linear_months →
      p.private_sale_cliff_months + p.private_sale_vesting_linear_months
        ≤ p.simulation_duration_months →
      ∀ (i : ℕ) (hi : i < (run_simulation p).length),
        p.private_sale_cliff_months + p.private_sale_vesting_linear_months
          ≤ (i : ℤ) + 1 →
        ((run_simulation p).get ⟨i, hi⟩).current_private_sale_locked = 0) := by
  obtain ⟨hts, hics, hdur, htap, htap1, hpsp, hpsp1, htc, htv, hpc, hpv,
    hemi, hburn, hburn1, hvol⟩ := hv
  constructor
  · intro hL _hdur i hi hmonth
    rw [run_simulation_get_teamLocked]
    exact teamLocked_exhausted p hts htap htc hL (i + 1) (by push_cast; omega)
  · intro hL _hdur i hi hmonth
    rw [run_simulation_get_psLocked]
    exact psLocked_exhausted p hts hpsp hpc hL (i + 1) (by push_cast; omega)

/-- Witness for C4 at the concrete scenario config: team cliff 1 plus
linear duration 1 means the month-2 record has zero team locked. -/
theorem c4_full_vesting_witness :
    ((run_simulation cfg1).get ⟨1, run_cfg1_zero_succ_lt⟩).current_team_locked
      = 0 :=
  (c4_full_vesting cfg1 cfg1_valid).1 (by decide) (by decide) 1
    run_cfg1_zero_succ_lt (by decide)

/-- Where a Python `TypeError` from using a `None` parameter value
arises: before the `for` loop begins iterating (lines 44-65), or inside
the body of the first loop iteration (lines 72-92). -/
inductive SimError where
  | typeErrorBeforeLoop : SimError
  | typeErrorInLoop : SimError
  deriving DecidableEq

/-- The raw parameter dictionary handed to `run_simulation`: every key
may be absent (`dict.get` returning `None`).  The four allocation
percentages extracted at lines 23-26 but never used afterwards are
included; their absence never causes an error. -/
structure RawParams where
  total_supply : Option ℚ
  initial_circulating_supply : Option ℚ
  simulation_duration_months : Option ℤ
  team_allocation_pct : Option ℚ
  private_sale_pct : Option ℚ
  public_sale_pct : Option ℚ
  treasury_pct : Option ℚ
  community_rewards_pct : Option ℚ
  liquidity_mining_pct : Option ℚ
  team_cliff_months : Option ℤ
  team_vesting_linear_months : Option ℤ
  private_sale_cliff_months : Option ℤ
  private_sale_vesting_linear_months : Option ℤ
  monthly_emission_tokens : Option ℚ
  transaction_fee_burn_pct : Option ℚ
  monthly_simulated_transactions : Option ℚ
  deriving DecidableEq

/-- Force a required value: a `None` raises the given error at this
point of execution, exactly where the Python code first uses the
value. -/
def withReq {α β : Type} (e : SimError) (x : Option α)
    (k : α → Except SimError β) : Except SimError β :=
  match x with
  | none => Except.error e
  | some v => k v

/-- `run_simulation` on a raw dictionary.  The order of the `withReq`
forcings is the order in which the Python code first performs
arithmetic or a comparison on each extracted value: line 44
(`total_supply * team_allocation_pct`), line 45, line 57 and 61 (the
`> 0` guards), line 65 (`range(1, d + 1)`); then, only if the loop runs
at least one iteration, line 72 (`month > team_cliff_months`), line 76,
line 83 (burn), line 86 (minted - burned) and line 87 (`+=` on the
circulating supply).  `monthly_simulated_transactions` is read with a
default of 1 000 000 (line 38) and can never raise. -/
def runSimulationRaw (p : RawParams) : Except SimError (List MonthRecord) :=
  withReq .typeErrorBeforeLoop p.total_supply fun ts =>
  withReq .typeErrorBeforeLoop p.team_allocation_pct fun tap =>
  withReq .typeErrorBeforeLoop p.private_sale_pct fun psp =>
  withReq .typeErrorBeforeLoop p.team_vesting_linear_months fun tvl =>
  withReq .typeErrorBeforeLoop p.private_sale_vesting_linear_months fun pvl =>
  withReq .typeErrorBeforeLoop p.simulation_duration_months fun dur =>
  if dur.toNat = 0 then
    Except.ok []
  else
    withReq .typeErrorInLoop p.team_cliff_months fun tcm =>
    withReq .typeErrorInLoop p.private_sale_cliff_months fun pcm =>
    withReq .typeErrorInLoop p.transaction_fee_burn_pct fun tfb =>
    withReq .typeErrorInLoop p.monthly_emission_tokens fun met =>
    withReq .typeErrorInLoop p.initial_circulating_supply fun ics =>
    Except.ok (run_simulation
      { total_supply := ts
        initial_circulating_supply := ics
        simulation_duration_months := dur
        team_allocation_pct := tap
        private_sale_pct := psp
        team_cliff_months := tcm
        team_vesting_linear_months := tvl
        private_sale_cliff_months := pcm
        private_sale_vesting_linear_months := pvl
        monthly_emission_tokens := met
        transaction_fee_burn_pct := tfb
        monthly_simulated_transactions :=
          p.monthly_simulated_transactions.getD 1000000 })

/-- A fully populated raw dictionary (the concrete scenario values). -/
def rawBase : RawParams :=
  { total_supply := some 1000000000
    initial_circulating_supply := some 150000000
    simulation_duration_months := some 2
    team_allocation_pct := some (1/5)
    private_sale_pct := some 0
    public_sale_pct := some 0
    treasury_pct := some 0
    community_rewards_pct := some 0
    liquidity_mining_pct := some 0
    team_cliff_months := some 1
    team_vesting_linear_months := some 1
    private_sale_cliff_months := some 0
    private_sale_vesting_linear_months := some 0
    monthly_emission_tokens := some 5000000
    transaction_fee_burn_pct := some (1/1000)
    monthly_simulated_transactions := some 500000000 }

/-- The raw dictionary missing only `team_cliff_months`. -/
def rawMissingCliff : RawParams := { rawBase with team_cliff_months := none }

/-- The raw dictionary missing only `total_supply`. -/
def rawMissingSupply : RawParams := { rawBase with total_supply := none }

/-- C9 counterexample: with `team_cliff_months` absent the failure is
raised inside the first loop iteration (at the `month >
team_cliff_months` comparison of line 72), not before the loop starts,
so there is no upfront field presence check. -/
theorem c9_counterexample :
    runSimulationRaw rawMissingCliff = Except.error SimError.typeErrorInLoop ∧
    runSimulationRaw rawMissingCliff
      ≠ Except.error SimError.typeErrorBeforeLoop := by
  constructor
  · rfl
  · intro h
    have h2 : Except.error (ε := SimError) (α := List MonthRecord)
        SimError.typeErrorInLoop = Except.error SimError.typeErrorBeforeLoop := by
      rw [← h]
      rfl
    cases h2

/-- C9 amended: there are no upfront presence checks; a missing
required field makes `run_simulation` fail with an uncaught TypeError
at the first use of the `None` value — for the supply, percentage,
vesting-duration and duration fields that is before the loop body runs,
while for the cliff, burn-percentage, emission and initial-circulating
fields it is inside the first loop iteration (so only when the duration
is positive) — and no records are produced in either case. -/
theorem c9_missing_field_behavior (p : RawParams) :
    (p.total_supply = none ∨ p.team_allocation_pct = none ∨
        p.private_sale_pct = none ∨ p.team_vesting_linear_months = none ∨
        p.private_sale_vesting_linear_months = none ∨
        p.simulation_duration_months = none →
      runSimulationRaw p = Except.error SimError.typeErrorBeforeLoop) ∧
    (∀ d : ℤ,
      p.total_supply ≠ none → p.team_allocation_pct ≠ none →
      p.private_sale_pct ≠ none → p.team_vesting_linear_months ≠ none →
      p.private_sale_vesting_linear_months ≠ none →
      p.simulation_duration_months = some d → 0 < d →
      (p.team_cliff_months = none ∨ p.private_sale_cliff_months = none ∨
        p.transaction_fee_burn_pct = none ∨ p.monthly_emission_tokens = none ∨
        p.initial_circulating_supply = none) →
      runSimulationRaw p = Except.error SimError.typeErrorInLoop) := by
  rcases p with ⟨ts, ics, dur, tap, psp, pub, tre, com, liq, tcm, tvl, pcm,
    pvl, met, tfb, msv⟩
  constructor
  · intro h
    cases ts with
    | none => rfl
    | some ts =>
      cases tap with
      | none => rfl
      | some tap =>
        cases psp with
        | none => rfl
        | some psp =>
          cases tvl with
          | none => rfl
          | some tvl =>
            cases pvl with
            | none => rfl
            | some pvl =>
              cases dur with
              | none => rfl
              | some dur => simp at h
  · intro d hts htap hpsp htvl hpvl hdur hd hmiss
    cases ts with
    | none => exact absurd rfl hts
    | some ts =>
      cases tap with
      | none => exact absurd rfl htap
      | some tap =>
        cases psp with
        | none => exact absurd rfl hpsp
        | some psp =>
          cases tvl with
          | none => exact absurd rfl htvl
          | some tvl =>
            cases pvl with
            | none => exact absurd rfl hpvl
            | some pvl =>
              cases hdur
              have hnz : ¬ (d.toNat = 0) := by omega
              show (if d.toNat = 0 then Except.ok [] else _) = _
              rw [if_neg hnz]
              cases tcm with
              | none => rfl
              | some tcm =>
                cases pcm with
                | none => rfl
                | some pcm =>
                  cases tfb with
                  | none => rfl
                  | some tfb =>
                    cases met with
                    | none => rfl
                    | some met =>
                      cases ics with
                      | none => rfl
                      | some ics => simp at hmiss

/-- Witness for the amended C9: a dictionary missing `total_supply`
fails before the loop, and one missing only `team_cliff_months` fails
inside the first iteration. -/
theorem c9_missing_field_behavior_witness :
    runSimulationRaw rawMissingSupply
      = Except.error SimError.typeErrorBeforeLoop ∧
    runSimulationRaw rawMissingCliff
      = Except.error SimError.typeErrorInLoop :=
  ⟨(c9_missing_field_behavior rawMissingSupply).1 (Or.inl rfl),
   (c9_missing_field_behavior rawMissingCliff).2 2
     (fun h => Option.noConfusion h) (fun h => Option.noConfusion h)
     (fun h => Option.noConfusion h) (fun h => Option.noConfusion h)
     (fun h => Option.noConfusion h) rfl (by decide) (Or.inl rfl)⟩

/-- C10: an absent `monthly_simulated_transactions` is silently
defaulted to 1 000 000 — the run is indistinguishable from one where
1 000 000 was supplied explicitly. -/
theorem c10_default_transactions (p : RawParams) :
    runSimulationRaw { p with monthly_simulated_transactions := none }
      = runSimulationRaw
          { p with monthly_simulated_transactions := some 1000000 } := rfl

end TokenomicsLab
